import Mathlib

/-!
Verification of the gdocs-cli request-batching and document-model layer.

This file shallowly embeds the parts of the repository that the claims
touch: the JSON-shaped edit-operation descriptors built by
utils/request_builder.py, the content and table CLI commands of
cli/content.py and cli/table.py (modelled as pure functions from their
inputs and the document snapshots returned by the read calls to the
trace of remote effects they perform), the document-tree readers, and
the account resolver of services/auth.py.

Python dictionaries are modelled by the JVal inductive; optional or
possibly-absent dictionary entries are modelled with Option; Python
truthiness tests on optional strings and numbers are modelled by the
pyTruthyStr and pyTruthyQ helpers.
-/

/-- JSON-like values, modelling the loosely typed dicts the source builds. -/
inductive JVal where
  | jbool : Bool → JVal
  | jstr : String → JVal
  | jint : Int → JVal
  | jnum : ℚ → JVal
  | jnull : JVal
  | jobj : List (String × JVal) → JVal
  | jarr : List JVal → JVal

/-- Python truthiness of an optional string: None and the empty string are falsy. -/
def pyTruthyStr : Option String → Bool
  | none => false
  | some s => s != ""

/-- Python truthiness of an optional number: None and zero are falsy. -/
def pyTruthyQ : Option ℚ → Bool
  | none => false
  | some q => q != 0

/-- Characters stripped by the Python str.strip method (ASCII whitespace). -/
def pyIsSpace (c : Char) : Bool :=
  c = ' ' || c = '\t' || c = '\n' || c = '\r' || c = '\x0b' || c = '\x0c'

/-- Python str.strip: remove leading and trailing whitespace. -/
def pyStrip (s : String) : String :=
  String.mk (((s.data.dropWhile pyIsSpace).reverse.dropWhile pyIsSpace).reverse)

/-- Python s.rstrip applied with the newline character only. -/
def pyRstripNewlines (s : String) : String :=
  String.mk ((s.data.reverse.dropWhile (fun c => c = '\n')).reverse)

/-- Python str.upper on the ASCII letters (heading names are ASCII). -/
def asciiUpper (s : String) : String :=
  String.mk (s.data.map Char.toUpper)

/-- Python list indexing: non-negative indices from the front, negative
indices from the back; none models an IndexError. -/
def pyIndex {α : Type} (l : List α) (i : Int) : Option α :=
  if 0 ≤ i then l.get? i.toNat
  else if 0 ≤ i + l.length then l.get? (i + l.length).toNat
  else none

/-- Named paragraph styles, from models/element.py. -/
inductive NamedStyleType where
  | NORMAL_TEXT | TITLE | SUBTITLE
  | HEADING_1 | HEADING_2 | HEADING_3 | HEADING_4 | HEADING_5 | HEADING_6
deriving DecidableEq

/-- Wire value of a named style; for this enum the member name equals the value. -/
def NamedStyleType.value : NamedStyleType → String
  | .NORMAL_TEXT => "NORMAL_TEXT"
  | .TITLE => "TITLE"
  | .SUBTITLE => "SUBTITLE"
  | .HEADING_1 => "HEADING_1"
  | .HEADING_2 => "HEADING_2"
  | .HEADING_3 => "HEADING_3"
  | .HEADING_4 => "HEADING_4"
  | .HEADING_5 => "HEADING_5"
  | .HEADING_6 => "HEADING_6"

/-- Enum member name (equal to the wire value for this enum). -/
def NamedStyleType.memberName (s : NamedStyleType) : String := s.value

/-- Members in declaration order, as Python iterates the enum. -/
def NamedStyleType.members : List NamedStyleType :=
  [.NORMAL_TEXT, .TITLE, .SUBTITLE,
   .HEADING_1, .HEADING_2, .HEADING_3, .HEADING_4, .HEADING_5, .HEADING_6]

/-- Python enum lookup by member name; none models the KeyError branch. -/
def namedStyleTypeLookup (s : String) : Option NamedStyleType :=
  NamedStyleType.members.find? (fun m => m.memberName == s)

/-- The valid-styles listing printed in the invalid-heading message. -/
def validStylesListing : String :=
  String.intercalate ", " (NamedStyleType.members.map NamedStyleType.memberName)

/-- Text formatting options, from models/element.py (dataclass TextStyle). -/
structure TextStyle where
  bold : Bool := false
  italic : Bool := false
  underline : Bool := false
  strikethrough : Bool := false
  font_size : Option ℚ := none
  font_family : Option String := none
  foreground_color : Option String := none
  background_color : Option String := none
  link_url : Option String := none
deriving DecidableEq

/-- Value of a hexadecimal digit character. -/
def hexDigitVal (c : Char) : Nat :=
  if '0' ≤ c ∧ c ≤ '9' then c.toNat - '0'.toNat
  else if 'a' ≤ c ∧ c ≤ 'f' then c.toNat - 'a'.toNat + 10
  else if 'A' ≤ c ∧ c ≤ 'F' then c.toNat - 'A'.toNat + 10
  else 0

/-- Value of a hexadecimal digit string. -/
def hexVal (cs : List Char) : Nat :=
  cs.foldl (fun acc c => 16 * acc + hexDigitVal c) 0

/-- parse_color from utils/request_builder.py: hex string to normalized rgb. -/
def parse_color (hex_color : String) : JVal :=
  let s := hex_color.data.dropWhile (fun c => c = '#')
  let r : ℚ := (hexVal (s.take 2) : ℚ) / 255
  let g : ℚ := (hexVal ((s.drop 2).take 2) : ℚ) / 255
  let b : ℚ := (hexVal ((s.drop 4).take 2) : ℚ) / 255
  JVal.jobj [("color", JVal.jobj [("rgbColor", JVal.jobj
    [("red", JVal.jnum r), ("green", JVal.jnum g), ("blue", JVal.jnum b)])])]

/-- Entries added to a location or range dict when a segment id is truthy. -/
def segIdFields : Option String → List (String × JVal)
  | none => []
  | some s => if s = "" then [] else [("segmentId", JVal.jstr s)]

/-- insert_text_request from utils/request_builder.py. -/
def insert_text_request (text : String) (index : Int) (segment_id : Option String) : JVal :=
  JVal.jobj [("insertText", JVal.jobj
    [("location", JVal.jobj ([("index", JVal.jint index)] ++ segIdFields segment_id)),
     ("text", JVal.jstr text)])]

/-- insert_text_at_end_request from utils/request_builder.py. -/
def insert_text_at_end_request (text : String) (segment_id : Option String) : JVal :=
  JVal.jobj [("insertText", JVal.jobj
    [("endOfSegmentLocation", JVal.jobj (segIdFields segment_id)),
     ("text", JVal.jstr text)])]

/-- The fields list built by update_text_style_request, in source order. -/
def styleFields (style : TextStyle) : List String :=
  (if style.bold then ["bold"] else []) ++
  (if style.italic then ["italic"] else []) ++
  (if style.underline then ["underline"] else []) ++
  (if style.strikethrough then ["strikethrough"] else []) ++
  (if pyTruthyQ style.font_size then ["fontSize"] else []) ++
  (if pyTruthyStr style.font_family then ["weightedFontFamily"] else []) ++
  (if pyTruthyStr style.link_url then ["link"] else []) ++
  (if pyTruthyStr style.foreground_color then ["foregroundColor"] else []) ++
  (if pyTruthyStr style.background_color then ["backgroundColor"] else [])

/-- The textStyle value dict built by update_text_style_request, in source order. -/
def styleTextStyle (style : TextStyle) : List (String × JVal) :=
  (if style.bold then [("bold", JVal.jbool true)] else []) ++
  (if style.italic then [("italic", JVal.jbool true)] else []) ++
  (if style.underline then [("underline", JVal.jbool true)] else []) ++
  (if style.strikethrough then [("strikethrough", JVal.jbool true)] else []) ++
  (if pyTruthyQ style.font_size then
    [("fontSize", JVal.jobj [("magnitude", JVal.jnum (style.font_size.getD 0)),
                             ("unit", JVal.jstr "PT")])] else []) ++
  (if pyTruthyStr style.font_family then
    [("weightedFontFamily", JVal.jobj
      [("fontFamily", JVal.jstr (style.font_family.getD ""))])] else []) ++
  (if pyTruthyStr style.link_url then
    [("link", JVal.jobj [("url", JVal.jstr (style.link_url.getD ""))])] else []) ++
  (if pyTruthyStr style.foreground_color then
    [("foregroundColor", parse_color (style.foreground_color.getD ""))] else []) ++
  (if pyTruthyStr style.background_color then
    [("backgroundColor", parse_color (style.background_color.getD ""))] else [])

/-- update_text_style_request from utils/request_builder.py. -/
def update_text_style_request (start_index end_index : Int) (style : TextStyle)
    (segment_id : Option String) : JVal :=
  JVal.jobj [("updateTextStyle", JVal.jobj
    [("range", JVal.jobj ([("startIndex", JVal.jint start_index),
                           ("endIndex", JVal.jint end_index)] ++ segIdFields segment_id)),
     ("textStyle", JVal.jobj (styleTextStyle style)),
     ("fields", JVal.jstr (String.intercalate "," (styleFields style)))])]

/-- apply_named_style_request from utils/request_builder.py. -/
def apply_named_style_request (start_index end_index : Int) (named_style : NamedStyleType)
    (segment_id : Option String) : JVal :=
  JVal.jobj [("updateParagraphStyle", JVal.jobj
    [("range", JVal.jobj ([("startIndex", JVal.jint start_index),
                           ("endIndex", JVal.jint end_index)] ++ segIdFields segment_id)),
     ("paragraphStyle", JVal.jobj [("namedStyleType", JVal.jstr named_style.value)]),
     ("fields", JVal.jstr "namedStyleType")])]

/-- A possibly-absent integer rendered into a request dict (Python passes the
possibly-absent startIndex of a located table straight through). -/
def jvalOfOptInt : Option Int → JVal
  | some i => JVal.jint i
  | none => JVal.jnull

/-- insert_table_row_request from utils/request_builder.py. The source
annotates table_start_index as int, but the table commands pass the
possibly-absent startIndex taken from the document dict, so it is modelled
as Option Int. -/
def insert_table_row_request (table_start_index : Option Int) (row_index : Int)
    (insert_below : Bool) : JVal :=
  JVal.jobj [("insertTableRow", JVal.jobj
    [("tableCellLocation", JVal.jobj
      [("tableStartLocation", JVal.jobj [("index", jvalOfOptInt table_start_index)]),
       ("rowIndex", JVal.jint row_index),
       ("columnIndex", JVal.jint 0)]),
     ("insertBelow", JVal.jbool insert_below)])]

/-- delete_table_row_request from utils/request_builder.py. -/
def delete_table_row_request (table_start_index : Option Int) (row_index : Int) : JVal :=
  JVal.jobj [("deleteTableRow", JVal.jobj
    [("tableCellLocation", JVal.jobj
      [("tableStartLocation", JVal.jobj [("index", jvalOfOptInt table_start_index)]),
       ("rowIndex", JVal.jint row_index),
       ("columnIndex", JVal.jint 0)])])]

/-- insert_table_column_request from utils/request_builder.py. -/
def insert_table_column_request (table_start_index : Option Int) (column_index : Int)
    (insert_right : Bool) : JVal :=
  JVal.jobj [("insertTableColumn", JVal.jobj
    [("tableCellLocation", JVal.jobj
      [("tableStartLocation", JVal.jobj [("index", jvalOfOptInt table_start_index)]),
       ("rowIndex", JVal.jint 0),
       ("columnIndex", JVal.jint column_index)]),
     ("insertRight", JVal.jbool insert_right)])]

/-- delete_table_column_request from utils/request_builder.py. -/
def delete_table_column_request (table_start_index : Option Int) (column_index : Int) : JVal :=
  JVal.jobj [("deleteTableColumn", JVal.jobj
    [("tableCellLocation", JVal.jobj
      [("tableStartLocation", JVal.jobj [("index", jvalOfOptInt table_start_index)]),
       ("rowIndex", JVal.jint 0),
       ("columnIndex", JVal.jint column_index)])])]

/-- A text run inside a paragraph element: the content entry of a textRun dict. -/
structure TextRun where
  content : String
deriving DecidableEq

/-- One entry of a paragraph's elements list: either a textRun dict or some
other inline element (which the readers skip). -/
inductive ParaElem where
  | textRun : TextRun → ParaElem
  | otherInline : ParaElem
deriving DecidableEq

/-- A paragraph dict: its elements list and the namedStyleType found under
its paragraphStyle dict (absent when either key is missing). -/
structure Paragraph where
  elements : List ParaElem
  namedStyleType : Option String := none
deriving DecidableEq

/-- One entry of a table cell's content list: a paragraph dict or some other
structural element (for example a nested table), which the cell reader skips. -/
inductive CellElem where
  | paragraph : Paragraph → CellElem
  | otherCellElem : CellElem
deriving DecidableEq

/-- A table cell dict with its content list. -/
structure TableCellD where
  content : List CellElem
deriving DecidableEq

/-- A table row dict with its tableCells list. -/
structure TableRowD where
  tableCells : List TableCellD
deriving DecidableEq

/-- A table dict: tableRows plus the rows and columns counts (absent keys
modelled with none, read with default 0 by the table locator). -/
structure TableD where
  tableRows : List TableRowD
  rows : Option Int := none
  columns : Option Int := none
deriving DecidableEq

/-- The tagged part of a structural element: a paragraph key, a table key,
or neither (for example a sectionBreak). -/
inductive SElemKind where
  | paragraph : Paragraph → SElemKind
  | table : TableD → SElemKind
  | otherStructural : SElemKind
deriving DecidableEq

/-- A structural element of a document body content list. -/
structure SElem where
  startIndex : Option Int := none
  endIndex : Option Int := none
  kind : SElemKind
deriving DecidableEq

/-- extract_text_from_paragraph from cli/content.py: concatenate textRun
contents, skipping other inline elements. -/
def extract_text_from_paragraph (p : Paragraph) : String :=
  String.join (p.elements.filterMap (fun e => match e with
    | ParaElem.textRun r => some r.content
    | ParaElem.otherInline => none))

/-- get_paragraph_style from cli/content.py. -/
def get_paragraph_style (p : Paragraph) : Option String :=
  p.namedStyleType

/-- extract_cell_text from cli/content.py: concatenate the texts of the
paragraphs in the cell content and strip the result. -/
def extract_cell_text (cell : TableCellD) : String :=
  pyStrip (String.join (cell.content.filterMap (fun e => match e with
    | CellElem.paragraph p => some (extract_text_from_paragraph p)
    | CellElem.otherCellElem => none)))

/-- The pipe-delimited Markdown line of one table row. -/
def mdRowLine (row : TableRowD) : String :=
  "| " ++ String.intercalate " | " (row.tableCells.map extract_cell_text) ++ " |"

/-- The Markdown header-separator line for a given cell count. -/
def mdSepLine (n : Nat) : String :=
  "| " ++ String.intercalate " | " (List.replicate n "---") ++ " |"

/-- The loop body of table_to_markdown: the row line, followed by the
separator when the enumeration index is zero. -/
def mdRowStep (ir : Nat × TableRowD) : List String :=
  if ir.1 = 0 then [mdRowLine ir.2, mdSepLine ir.2.tableCells.length]
  else [mdRowLine ir.2]

/-- The markdown_rows list accumulated by the loop of table_to_markdown. -/
def tableMarkdownRows (rows : List TableRowD) : List String :=
  (rows.enum.map mdRowStep).join

/-- table_to_markdown from cli/content.py. -/
def table_to_markdown (t : TableD) : String :=
  if t.tableRows = [] then ""
  else String.intercalate "\n" (tableMarkdownRows t.tableRows)

/-- The markdown parts a single paragraph contributes in content_to_markdown:
nothing when the text is empty after stripping trailing newlines, otherwise
one part chosen by the if chain over the named style. -/
def paraMarkdownParts (p : Paragraph) : List String :=
  let text := pyRstripNewlines (extract_text_from_paragraph p)
  if text = "" then []
  else
    let style := get_paragraph_style p
    if style = some "TITLE" then ["# " ++ text ++ "\n"]
    else if style = some "SUBTITLE" then ["*" ++ text ++ "*\n"]
    else if style = some "HEADING_1" then ["# " ++ text ++ "\n"]
    else if style = some "HEADING_2" then ["## " ++ text ++ "\n"]
    else if style = some "HEADING_3" then ["### " ++ text ++ "\n"]
    else if style = some "HEADING_4" then ["#### " ++ text ++ "\n"]
    else if style = some "HEADING_5" then ["##### " ++ text ++ "\n"]
    else if style = some "HEADING_6" then ["###### " ++ text ++ "\n"]
    else [text ++ "\n"]

/-- The markdown parts one structural element contributes in content_to_markdown. -/
def elemMarkdownParts (e : SElem) : List String :=
  match e.kind with
  | SElemKind.paragraph p => paraMarkdownParts p
  | SElemKind.table t => ["\n" ++ table_to_markdown t ++ "\n"]
  | SElemKind.otherStructural => []

/-- content_to_markdown from cli/content.py. -/
def content_to_markdown (content : List SElem) : String :=
  String.intercalate "\n" ((content.map elemMarkdownParts).join)

/-- The plain-text parts one structural element contributes in
extract_text_from_content. -/
def elemPlainText (e : SElem) : String :=
  match e.kind with
  | SElemKind.paragraph p => extract_text_from_paragraph p
  | SElemKind.table t =>
      String.join (t.tableRows.map (fun row =>
        String.join (row.tableCells.map (fun cell => extract_cell_text cell ++ "\t")) ++ "\n"))
  | SElemKind.otherStructural => ""

/-- extract_text_from_content from cli/content.py. -/
def extract_text_from_content (content : List SElem) : String :=
  String.join (content.map elemPlainText)

/-- One entry of the list built by find_tables in cli/table.py. -/
structure TableInfo where
  start_index : Option Int
  end_index : Option Int
  rows : Int
  columns : Int
deriving DecidableEq

/-- find_tables from cli/table.py: scan the top-level content list for
table elements. -/
def find_tables (content : List SElem) : List TableInfo :=
  content.filterMap (fun e => match e.kind with
    | SElemKind.table t =>
        some { start_index := e.startIndex, end_index := e.endIndex,
               rows := t.rows.getD 0, columns := t.columns.getD 0 }
    | _ => none)

/-- One remote call performed by a command: a document read or a batch update
carrying its ordered request list. -/
inductive Effect where
  | readDoc : Effect
  | batchUpdate : List JVal → Effect

/-- How a command invocation ends: normal success, an error message followed
by exit status 1, or an uncaught Python IndexError. -/
inductive CmdResult where
  | success : CmdResult
  | exitFailure : String → CmdResult
  | indexFault : CmdResult

/-- The invalid-heading message printed by the content commands. -/
def invalidHeadingMessage (heading : String) : String :=
  "Invalid heading: " ++ heading ++ ". Valid: " ++ validStylesListing

/-- insert_command from cli/content.py, as the trace of remote effects it
performs and its outcome. It reads nothing; a falsy heading option skips the
heading branch; an unknown heading name exits before the batch update. -/
def insert_command (text : String) (index : Int) (heading : Option String)
    (bold italic : Bool) : List Effect × CmdResult :=
  let text_with_newline := text ++ "\n"
  let requests := [insert_text_request text_with_newline index none]
  let end_index : Int := index + (text_with_newline.length : Int)
  let afterHeading : String ⊕ List JVal :=
    if pyTruthyStr heading then
      match namedStyleTypeLookup (asciiUpper (heading.getD "")) with
      | none => Sum.inl (invalidHeadingMessage (heading.getD ""))
      | some style_type =>
          Sum.inr (requests ++ [apply_named_style_request index end_index style_type none])
    else Sum.inr requests
  match afterHeading with
  | Sum.inl msg => ([], CmdResult.exitFailure msg)
  | Sum.inr reqs =>
      let reqs2 :=
        if bold || italic then
          reqs ++ [update_text_style_request index (index + (text.length : Int))
            { bold := bold, italic := italic } none]
        else reqs
      ([Effect.batchUpdate reqs2], CmdResult.success)

/-- The pre-append end index captured by append_command: the endIndex of the
last content element (default 1 when the key is absent), or 1 when the
content list is empty. -/
def lastEndIndex (content : List SElem) : Int :=
  match content.getLast? with
  | some e => e.endIndex.getD 1
  | none => 1

/-- append_command from cli/content.py, as the trace of remote effects it
performs and its outcome. The two document snapshots are the responses the
two get_document_content calls would return; the second is consumed only on
the heading path. -/
def append_command (text : String) (heading : Option String)
    (preDoc postDoc : List SElem) : List Effect × CmdResult :=
  let text_with_newline := text ++ "\n"
  let requests := [insert_text_at_end_request text_with_newline none]
  if pyTruthyStr heading then
    let end_index := lastEndIndex preDoc
    match namedStyleTypeLookup (asciiUpper (heading.getD "")) with
    | none => ([Effect.readDoc], CmdResult.exitFailure (invalidHeadingMessage (heading.getD "")))
    | some style_type =>
        match postDoc.getLast? with
        | some lastElem =>
            let new_end := lastElem.endIndex.getD 1
            ([Effect.readDoc, Effect.batchUpdate requests, Effect.readDoc,
              Effect.batchUpdate [apply_named_style_request end_index (new_end - 1) style_type none]],
             CmdResult.success)
        | none =>
            ([Effect.readDoc, Effect.batchUpdate requests, Effect.readDoc], CmdResult.success)
  else ([Effect.batchUpdate requests], CmdResult.success)

/-- The table-not-found message printed by the table commands. -/
def tableNotFoundMessage (table_index : Int) (count : Nat) : String :=
  "Table index " ++ toString table_index ++ " not found. Document has " ++
    toString count ++ " table(s)."

/-- add_row_command from cli/table.py, as the trace of remote effects it
performs and its outcome, over the document snapshot its read returns. -/
def add_row_command (table_index : Int) (row : Int) (above : Bool)
    (doc : List SElem) : List Effect × CmdResult :=
  let tables := find_tables doc
  if (tables.length : Int) ≤ table_index then
    ([Effect.readDoc], CmdResult.exitFailure (tableNotFoundMessage table_index tables.length))
  else
    match pyIndex tables table_index with
    | none => ([Effect.readDoc], CmdResult.indexFault)
    | some t =>
        ([Effect.readDoc,
          Effect.batchUpdate [insert_table_row_request t.start_index row (!above)]],
         CmdResult.success)

/-- delete_row_command from cli/table.py. -/
def delete_row_command (table_index : Int) (row : Int)
    (doc : List SElem) : List Effect × CmdResult :=
  let tables := find_tables doc
  if (tables.length : Int) ≤ table_index then
    ([Effect.readDoc], CmdResult.exitFailure (tableNotFoundMessage table_index tables.length))
  else
    match pyIndex tables table_index with
    | none => ([Effect.readDoc], CmdResult.indexFault)
    | some t =>
        ([Effect.readDoc,
          Effect.batchUpdate [delete_table_row_request t.start_index row]],
         CmdResult.success)

/-- add_column_command from cli/table.py. -/
def add_column_command (table_index : Int) (column : Int) (left : Bool)
    (doc : List SElem) : List Effect × CmdResult :=
  let tables := find_tables doc
  if (tables.length : Int) ≤ table_index then
    ([Effect.readDoc], CmdResult.exitFailure (tableNotFoundMessage table_index tables.length))
  else
    match pyIndex tables table_index with
    | none => ([Effect.readDoc], CmdResult.indexFault)
    | some t =>
        ([Effect.readDoc,
          Effect.batchUpdate [insert_table_column_request t.start_index column (!left)]],
         CmdResult.success)

/-- delete_column_command from cli/table.py. -/
def delete_column_command (table_index : Int) (column : Int)
    (doc : List SElem) : List Effect × CmdResult :=
  let tables := find_tables doc
  if (tables.length : Int) ≤ table_index then
    ([Effect.readDoc], CmdResult.exitFailure (tableNotFoundMessage table_index tables.length))
  else
    match pyIndex tables table_index with
    | none => ([Effect.readDoc], CmdResult.indexFault)
    | some t =>
        ([Effect.readDoc,
          Effect.batchUpdate [delete_table_column_request t.start_index column]],
         CmdResult.success)

/-- Failures of account resolution, from services/auth.py. -/
inductive ResolveError where
  | accountNotFound : String → List String → ResolveError
  | noAccountConfigured : ResolveError
deriving DecidableEq

/-- Priority 4 of resolve_account: the first configured account, else the
NoAccountConfiguredError raise. -/
def resolveFirstAvailable (accounts : List String) : Except ResolveError String :=
  match accounts with
  | a :: _ => Except.ok a
  | [] => Except.error ResolveError.noAccountConfigured

/-- Priority 3 of resolve_account: the configured default when it is truthy
and still among the configured accounts. -/
def resolveDefault (accounts : List String) (default_account : Option String) :
    Except ResolveError String :=
  match default_account with
  | some d =>
      if d ≠ "" ∧ d ∈ accounts then Except.ok d
      else resolveFirstAvailable accounts
  | none => resolveFirstAvailable accounts

/-- Priority 2 of resolve_account: the environment override when truthy. -/
def resolveEnv (accounts : List String) (env_account default_account : Option String) :
    Except ResolveError String :=
  match env_account with
  | some v =>
      if v = "" then resolveDefault accounts default_account
      else if v ∈ accounts then Except.ok v
      else Except.error (ResolveError.accountNotFound v accounts)
  | none => resolveDefault accounts default_account

/-- resolve_account from services/auth.py: explicit flag, then the
environment override, then the configured default when still configured,
then the first configured account; truthiness tests mirror the source. -/
def resolve_account (accounts : List String) (env_account default_account : Option String)
    (explicit_account : Option String) : Except ResolveError String :=
  match explicit_account with
  | some e =>
      if e = "" then resolveEnv accounts env_account default_account
      else if e ∈ accounts then Except.ok e
      else Except.error (ResolveError.accountNotFound e accounts)
  | none => resolveEnv accounts env_account default_account

/-- A table cell whose content is one paragraph with a single text run. -/
def simpleCell (s : String) : TableCellD :=
  { content := [CellElem.paragraph { elements := [ParaElem.textRun { content := s }] }] }

/-- A table row of simple cells. -/
def simpleRow (ss : List String) : TableRowD :=
  { tableCells := ss.map simpleCell }

/-- The two-row, two-column example table with cell texts A,B / 1,2. -/
def exampleTable22 : TableD :=
  { tableRows := [simpleRow ["A\n", "B\n"], simpleRow ["1\n", "2\n"]] }

/-- A body element holding a one-row table with cell texts A,B. -/
def exampleTableRowAB : SElem :=
  { kind := SElemKind.table { tableRows := [simpleRow ["A\n", "B\n"]] } }

/-- A body element holding a two-row table with cell texts A,B / C,D. -/
def exampleTableTwoRows : SElem :=
  { kind := SElemKind.table { tableRows := [simpleRow ["A\n", "B\n"], simpleRow ["C\n", "D\n"]] } }

/-- A paragraph with one text run and an optional named style. -/
def exampleParagraph (s : String) (style : Option String) : Paragraph :=
  { elements := [ParaElem.textRun { content := s }], namedStyleType := style }

/-- A paragraph body element with one text run and an optional named style. -/
def examplePara (s : String) (style : Option String) : SElem :=
  { kind := SElemKind.paragraph
      { elements := [ParaElem.textRun { content := s }], namedStyleType := style } }

/-- A body element with only an end index, standing for the last element of a
snapshot in the append scenario. -/
def endElem (e : Int) : SElem :=
  { endIndex := some e, kind := SElemKind.otherStructural }

/-- A body element holding an empty table with given indices and counts. -/
def exampleTableElem (s e rows cols : Int) : SElem :=
  { startIndex := some s, endIndex := some e,
    kind := SElemKind.table { tableRows := [], rows := some rows, columns := some cols } }

/-- A document snapshot containing two tables (at start indices 2 and 60). -/
def twoTableDoc : List SElem :=
  [examplePara "Intro\n" none, exampleTableElem 2 50 2 2, exampleTableElem 60 90 3 1]

theorem string_foldl_append (l : List String) : ∀ x : String,
    l.foldl (fun r s => r ++ s) x = x ++ l.foldl (fun r s => r ++ s) "" := by
  induction l with
  | nil => intro x; simp
  | cons a t ih =>
      intro x
      simp only [List.foldl_cons]
      rw [ih (x ++ a), ih ("" ++ a), String.empty_append, String.append_assoc]

theorem string_join_cons (a : String) (l : List String) :
    String.join (a :: l) = a ++ String.join l := by
  show (a :: l).foldl (fun r s => r ++ s) "" = a ++ l.foldl (fun r s => r ++ s) ""
  rw [List.foldl_cons, string_foldl_append l ("" ++ a), String.empty_append]

theorem pyTruthyStr_some {s : String} (h : s ≠ "") : pyTruthyStr (some s) = true := by
  simp [pyTruthyStr, h]

theorem pyTruthyStr_iff (o : Option String) :
    pyTruthyStr o = true ↔ ∃ s, o = some s ∧ s ≠ "" := by
  cases o <;> simp [pyTruthyStr]

theorem pyTruthyQ_iff (o : Option ℚ) :
    pyTruthyQ o = true ↔ ∃ q, o = some q ∧ q ≠ 0 := by
  cases o <;> simp [pyTruthyQ]

theorem map_fst_if {c : Prop} [Decidable c] (x : String × JVal) :
    (if c then [x] else []).map Prod.fst = if c then [x.1] else [] := by
  by_cases h : c <;> simp [h]

theorem mem_if_singleton {c : Prop} [Decidable c] (n x : String) :
    (n ∈ if c then [x] else []) ↔ (n = x ∧ c) := by
  by_cases h : c <;> simp [h]

/-- Claim C5 (amended): for every TextStyle, the text-style-update
descriptor's field list and its textStyle value object contain exactly the
wire names of the attributes supplied with truthy values (true flags,
non-empty strings, non-zero sizes); unsupplied attributes appear in neither,
and the request joins the field list with commas. -/
theorem update_text_style_field_masking (style : TextStyle) :
    styleFields style = (styleTextStyle style).map Prod.fst ∧
    (∀ n : String, n ∈ styleFields style ↔
      ((n = "bold" ∧ style.bold = true) ∨
       (n = "italic" ∧ style.italic = true) ∨
       (n = "underline" ∧ style.underline = true) ∨
       (n = "strikethrough" ∧ style.strikethrough = true) ∨
       (n = "fontSize" ∧ ∃ q, style.font_size = some q ∧ q ≠ 0) ∨
       (n = "weightedFontFamily" ∧ ∃ v, style.font_family = some v ∧ v ≠ "") ∨
       (n = "link" ∧ ∃ v, style.link_url = some v ∧ v ≠ "") ∨
       (n = "foregroundColor" ∧ ∃ v, style.foreground_color = some v ∧ v ≠ "") ∨
       (n = "backgroundColor" ∧ ∃ v, style.background_color = some v ∧ v ≠ ""))) ∧
    (∀ si ei : Int, update_text_style_request si ei style none =
      JVal.jobj [("updateTextStyle", JVal.jobj
        [("range", JVal.jobj [("startIndex", JVal.jint si), ("endIndex", JVal.jint ei)]),
         ("textStyle", JVal.jobj (styleTextStyle style)),
         ("fields", JVal.jstr (String.intercalate "," (styleFields style)))])]) := by
  refine ⟨?_, ?_, fun si ei => rfl⟩
  · simp only [styleFields, styleTextStyle, List.map_append, map_fst_if]
  · intro n
    simp only [styleFields, List.mem_append, mem_if_singleton, pyTruthyQ_iff, pyTruthyStr_iff]
    aesop

/-- Witness for claim C5 at a concrete style: bold alone yields exactly the
bold field in both the field list and the value object. -/
theorem update_text_style_field_masking_witness :
    styleFields { bold := true } = ["bold"] ∧
    styleTextStyle { bold := true } = [("bold", JVal.jbool true)] ∧
    "bold" ∈ styleFields ({ bold := true } : TextStyle) := by
  refine ⟨rfl, rfl, ?_⟩
  exact ((update_text_style_field_masking { bold := true }).2.1 "bold").mpr (Or.inl ⟨rfl, rfl⟩)

/-- Counterexample to claim C5 as stated: a font_family supplied with the
non-default value of the empty string is excluded from both the field list
and the textStyle value object, because the source tests Python truthiness
rather than difference from the default. -/
theorem style_fields_nondefault_counterexample :
    ({ font_family := some "" } : TextStyle).font_family ≠ ({} : TextStyle).font_family ∧
    styleFields { font_family := some "" } = [] ∧
    "weightedFontFamily" ∉ styleFields ({ font_family := some "" } : TextStyle) ∧
    styleTextStyle { font_family := some "" } = [] :=
  ⟨by decide, rfl, by decide, rfl⟩

/-- Claim C3: every insert-with-heading invocation composes one batch of
exactly two descriptors, the insert of the text with an appended newline at
index I followed by the heading descriptor over the newline-inclusive range
from I to I plus the text length plus one; in particular inserting Title at
index 1 with HEADING_1 yields the two concrete descriptors over range 1 to 7
in a single batch. -/
theorem insert_with_heading_two_descriptor_batch :
    (∀ (text : String) (index : Int) (h : String) (st : NamedStyleType),
      h ≠ "" → namedStyleTypeLookup (asciiUpper h) = some st →
      insert_command text index (some h) false false =
        ([Effect.batchUpdate
           [insert_text_request (text ++ "\n") index none,
            apply_named_style_request index (index + (text.length : Int) + 1) st none]],
         CmdResult.success)) ∧
    insert_command "Title" 1 (some "HEADING_1") false false =
      ([Effect.batchUpdate
         [JVal.jobj [("insertText", JVal.jobj
            [("location", JVal.jobj [("index", JVal.jint 1)]),
             ("text", JVal.jstr "Title\n")])],
          JVal.jobj [("updateParagraphStyle", JVal.jobj
            [("range", JVal.jobj [("startIndex", JVal.jint 1), ("endIndex", JVal.jint 7)]),
             ("paragraphStyle", JVal.jobj [("namedStyleType", JVal.jstr "HEADING_1")]),
             ("fields", JVal.jstr "namedStyleType")])]]],
       CmdResult.success) := by
  constructor
  · intro text index h st hne hlook
    have h1 : ("\n" : String).length = 1 := rfl
    have hlen : ((text ++ "\n").length : Int) = (text.length : Int) + 1 := by
      rw [String.length_append, h1]; push_cast; ring
    simp only [insert_command, pyTruthyStr_some hne, if_true, Option.getD_some, hlook, hlen]
    norm_num [List.append_assoc, add_assoc]
  · rfl

theorem insert_with_heading_two_descriptor_batch_witness :
    insert_command "X" 3 (some "heading_2") false false =
      ([Effect.batchUpdate
         [insert_text_request ("X" ++ "\n") 3 none,
          apply_named_style_request 3 (3 + (("X" : String).length : Int) + 1)
            NamedStyleType.HEADING_2 none]],
       CmdResult.success) :=
  insert_with_heading_two_descriptor_batch.1 "X" 3 "heading_2" NamedStyleType.HEADING_2
    (by decide) rfl

/-- Claim C1: every append-with-heading invocation with a valid heading
performs exactly the four steps: a read capturing the pre-append end index
(the endIndex of the last body element, or 1 when the body is empty), one
batch with a single end-of-segment insert of the text plus a newline, a
second read capturing the post-append end index, and one batch with a single
heading descriptor over the range from the pre-append end to the post-append
end minus one. -/
theorem append_with_heading_four_steps
    (text h : String) (st : NamedStyleType) (preDoc postDoc : List SElem)
    (lastPost : SElem) (postEnd : Int)
    (hne : h ≠ "") (hlook : namedStyleTypeLookup (asciiUpper h) = some st)
    (hlast : postDoc.getLast? = some lastPost) (hend : lastPost.endIndex = some postEnd) :
    append_command text (some h) preDoc postDoc =
      ([Effect.readDoc,
        Effect.batchUpdate [insert_text_at_end_request (text ++ "\n") none],
        Effect.readDoc,
        Effect.batchUpdate
          [apply_named_style_request (lastEndIndex preDoc) (postEnd - 1) st none]],
       CmdResult.success) ∧
    (preDoc = [] → lastEndIndex preDoc = 1) ∧
    (∀ e preEnd, preDoc.getLast? = some e → e.endIndex = some preEnd →
      lastEndIndex preDoc = preEnd) := by
  refine ⟨?_, ?_, ?_⟩
  · simp only [append_command, pyTruthyStr_some hne, if_true, Option.getD_some, hlook,
      hlast, hend]
  · intro hnil; subst hnil; rfl
  · intro e preEnd he hend2
    simp only [lastEndIndex, he, hend2, Option.getD_some]

theorem append_with_heading_four_steps_witness :
    append_command "X" (some "HEADING_1") [endElem 25] [endElem 29] =
      ([Effect.readDoc,
        Effect.batchUpdate [insert_text_at_end_request ("X" ++ "\n") none],
        Effect.readDoc,
        Effect.batchUpdate
          [apply_named_style_request (lastEndIndex [endElem 25]) (29 - 1)
            NamedStyleType.HEADING_1 none]],
       CmdResult.success) :=
  (append_with_heading_four_steps "X" "HEADING_1" NamedStyleType.HEADING_1
    [endElem 25] [endElem 29] (endElem 29) 29 (by decide) rfl rfl rfl).1

/-- Counterexample to claim C2 as stated: on the append command an invalid
heading is reported only after the document read, so a network call is made
before the invalid-heading error. -/
theorem append_invalid_heading_reads_before_error :
    append_command "x" (some "BOGUS") [] [] =
      ([Effect.readDoc], CmdResult.exitFailure (invalidHeadingMessage "BOGUS")) ∧
    Effect.readDoc ∈ (append_command "x" (some "BOGUS") [] []).1 :=
  ⟨rfl, by show Effect.readDoc ∈ [Effect.readDoc]; simp⟩

/-- Claim C2 (amended): a non-empty heading name outside the named-style
enum (after uppercasing) makes the command report the invalid-heading error
and exit with failure before any batch is submitted; the insert command
performs no network call at all, while the append command has already done
its initial document read but submits no batch. -/
theorem invalid_heading_fail_fast :
    (∀ (text : String) (index : Int) (h : String) (bold italic : Bool),
      h ≠ "" → namedStyleTypeLookup (asciiUpper h) = none →
      insert_command text index (some h) bold italic =
        ([], CmdResult.exitFailure (invalidHeadingMessage h))) ∧
    (∀ (text h : String) (preDoc postDoc : List SElem),
      h ≠ "" → namedStyleTypeLookup (asciiUpper h) = none →
      append_command text (some h) preDoc postDoc =
        ([Effect.readDoc], CmdResult.exitFailure (invalidHeadingMessage h)) ∧
      ∀ reqs, Effect.batchUpdate reqs ∉ (append_command text (some h) preDoc postDoc).1) := by
  constructor
  · intro text index h bold italic hne hlook
    simp only [insert_command, pyTruthyStr_some hne, if_true, Option.getD_some, hlook]
  · intro text h preDoc postDoc hne hlook
    have heq : append_command text (some h) preDoc postDoc =
        ([Effect.readDoc], CmdResult.exitFailure (invalidHeadingMessage h)) := by
      simp only [append_command, pyTruthyStr_some hne, if_true, Option.getD_some, hlook]
    exact ⟨heq, by rw [heq]; simp⟩

theorem invalid_heading_fail_fast_witness :
    insert_command "T" 1 (some "NOPE") false false =
      ([], CmdResult.exitFailure (invalidHeadingMessage "NOPE")) ∧
    append_command "T" (some "NOPE") [] [] =
      ([Effect.readDoc], CmdResult.exitFailure (invalidHeadingMessage "NOPE")) :=
  ⟨invalid_heading_fail_fast.1 "T" 1 "NOPE" false false (by decide) rfl,
   (invalid_heading_fail_fast.2 "T" "NOPE" [] [] (by decide) rfl).1⟩

/-- Claim C4: account resolution returns the first match of explicit name
(AccountNotFound when not configured), then environment name (AccountNotFound
when not configured), then the configured default provided it is still
configured, then the first configured account, and raises NoAccountConfigured
when the list is empty and no name was supplied. -/
theorem resolve_account_priority (accounts : List String) :
    (∀ (env dflt : Option String) (e : String), e ≠ "" → e ∈ accounts →
      resolve_account accounts env dflt (some e) = Except.ok e) ∧
    (∀ (env dflt : Option String) (e : String), e ≠ "" → e ∉ accounts →
      resolve_account accounts env dflt (some e) =
        Except.error (ResolveError.accountNotFound e accounts)) ∧
    (∀ (dflt : Option String) (v : String), v ≠ "" → v ∈ accounts →
      resolve_account accounts (some v) dflt none = Except.ok v) ∧
    (∀ (dflt : Option String) (v : String), v ≠ "" → v ∉ accounts →
      resolve_account accounts (some v) dflt none =
        Except.error (ResolveError.accountNotFound v accounts)) ∧
    (∀ d : String, d ≠ "" → d ∈ accounts →
      resolve_account accounts none (some d) none = Except.ok d) ∧
    (∀ (d a : String) (rest : List String), accounts = a :: rest → d ∉ accounts →
      resolve_account accounts none (some d) none = Except.ok a) ∧
    (∀ (a : String) (rest : List String), accounts = a :: rest →
      resolve_account accounts none none none = Except.ok a) ∧
    (accounts = [] →
      resolve_account accounts none none none =
        Except.error ResolveError.noAccountConfigured) ∧
    (accounts = [] → ∀ e : String, e ≠ "" →
      resolve_account accounts none none (some e) =
        Except.error (ResolveError.accountNotFound e accounts)) := by
  refine ⟨?_, ?_, ?_, ?_, ?_, ?_, ?_, ?_, ?_⟩
  · intro env dflt e hne hm
    simp [resolve_account, hne, hm]
  · intro env dflt e hne hm
    simp [resolve_account, hne, hm]
  · intro dflt v hne hm
    simp [resolve_account, resolveEnv, hne, hm]
  · intro dflt v hne hm
    simp [resolve_account, resolveEnv, hne, hm]
  · intro d hne hm
    simp [resolve_account, resolveEnv, resolveDefault, hne, hm]
  · intro d a rest hacc hm
    subst hacc
    simp [resolve_account, resolveEnv, resolveDefault, resolveFirstAvailable, hm]
  · intro a rest hacc
    subst hacc
    simp [resolve_account, resolveEnv, resolveDefault, resolveFirstAvailable]
  · intro hacc
    subst hacc
    simp [resolve_account, resolveEnv, resolveDefault, resolveFirstAvailable]
  · intro hacc e hne
    subst hacc
    simp [resolve_account, hne]

theorem resolve_account_priority_witness :
    resolve_account ["a", "b"] (some "b") (some "b") (some "a") = Except.ok "a" ∧
    resolve_account ["a", "b"] none (some "a") (some "c") =
      Except.error (ResolveError.accountNotFound "c" ["a", "b"]) ∧
    resolve_account ["a", "b"] (some "b") (some "a") none = Except.ok "b" ∧
    resolve_account ["a", "b"] (some "z") none none =
      Except.error (ResolveError.accountNotFound "z" ["a", "b"]) ∧
    resolve_account ["a", "b"] none (some "b") none = Except.ok "b" ∧
    resolve_account ["a", "b"] none (some "z") none = Except.ok "a" ∧
    resolve_account ["a", "b"] none none none = Except.ok "a" ∧
    resolve_account [] none none none = Except.error ResolveError.noAccountConfigured ∧
    resolve_account [] none none (some "x") =
      Except.error (ResolveError.accountNotFound "x" []) := by
  obtain ⟨h1, h2, h3, h4, h5, h6, h7, _, _⟩ := resolve_account_priority ["a", "b"]
  obtain ⟨_, _, _, _, _, _, _, g8, g9⟩ := resolve_account_priority ([] : List String)
  exact ⟨h1 (some "b") (some "b") "a" (by decide) (by decide),
         h2 none (some "a") "c" (by decide) (by decide),
         h3 (some "a") "b" (by decide) (by decide),
         h4 none "z" (by decide) (by decide),
         h5 "b" (by decide) (by decide),
         h6 "z" "a" ["b"] rfl (by decide),
         h7 "a" ["b"] rfl,
         g8 rfl,
         g9 rfl "x" (by decide)⟩

theorem list_get?_length_sub_one {α : Type} : ∀ l : List α, l.get? (l.length - 1) = l.getLast?
  | [] => rfl
  | [_] => rfl
  | a :: b :: t => by
      have ih := list_get?_length_sub_one (b :: t)
      simp only [List.length_cons, Nat.add_sub_cancel] at ih ⊢
      rw [List.get?_cons_succ, ih]
      rfl

theorem ne_nil_of_getLast?_eq_some {α : Type} {l : List α} {a : α}
    (h : l.getLast? = some a) : l ≠ [] := by
  intro hnil
  subst hnil
  simp at h

theorem pyIndex_neg_one {α : Type} (l : List α) (h : l ≠ []) :
    pyIndex l (-1) = l.getLast? := by
  have hlen : 0 < l.length := List.length_pos.mpr h
  have h1 : ¬ (0 : Int) ≤ -1 := by norm_num
  have h2 : (0 : Int) ≤ -1 + l.length := by omega
  simp only [pyIndex, if_neg h1, if_pos h2]
  have h3 : ((-1 : Int) + l.length).toNat = l.length - 1 := by omega
  rw [h3, list_get?_length_sub_one]

theorem pyIndex_too_negative {α : Type} (l : List α) (i : Int)
    (h : i + l.length < 0) : pyIndex l i = none := by
  have h1 : ¬ (0 : Int) ≤ i := by omega
  have h2 : ¬ (0 : Int) ≤ i + l.length := by omega
  simp only [pyIndex, if_neg h1, if_neg h2]

/-- Claim C6: every table-relative command whose table index is at least
the number of located tables reports the table-not-found message naming the
table count, exits with failure, and performs no batch update and no
indexing fault. -/
theorem table_index_out_of_range_reports_not_found
    (table_index row column : Int) (above left : Bool) (doc : List SElem)
    (hge : ((find_tables doc).length : Int) ≤ table_index) :
    add_row_command table_index row above doc =
      ([Effect.readDoc],
       CmdResult.exitFailure (tableNotFoundMessage table_index (find_tables doc).length)) ∧
    delete_row_command table_index row doc =
      ([Effect.readDoc],
       CmdResult.exitFailure (tableNotFoundMessage table_index (find_tables doc).length)) ∧
    add_column_command table_index column left doc =
      ([Effect.readDoc],
       CmdResult.exitFailure (tableNotFoundMessage table_index (find_tables doc).length)) ∧
    delete_column_command table_index column doc =
      ([Effect.readDoc],
       CmdResult.exitFailure (tableNotFoundMessage table_index (find_tables doc).length)) := by
  refine ⟨?_, ?_, ?_, ?_⟩ <;>
    simp [add_row_command, delete_row_command, add_column_command, delete_column_command, hge]

theorem table_index_out_of_range_reports_not_found_witness :
    add_row_command 2 0 false twoTableDoc =
      ([Effect.readDoc],
       CmdResult.exitFailure (tableNotFoundMessage 2 (find_tables twoTableDoc).length)) ∧
    delete_column_command 2 0 twoTableDoc =
      ([Effect.readDoc],
       CmdResult.exitFailure (tableNotFoundMessage 2 (find_tables twoTableDoc).length)) ∧
    tableNotFoundMessage 2 (find_tables twoTableDoc).length =
      "Table index 2 not found. Document has 2 table(s)." := by
  obtain ⟨h1, _, _, h4⟩ :=
    table_index_out_of_range_reports_not_found 2 0 0 false false twoTableDoc (by decide)
  exact ⟨h1, h4, rfl⟩

/-- Claim C10: a negative table index passes the bounds check; index -1
silently operates on the last located table, and an index more negative than
the negated table count ends in an uncaught out-of-range indexing fault. -/
theorem negative_table_index_from_end_indexing
    (row column : Int) (above left : Bool) (doc : List SElem) :
    (∀ t, (find_tables doc).getLast? = some t →
      add_row_command (-1) row above doc =
        ([Effect.readDoc,
          Effect.batchUpdate [insert_table_row_request t.start_index row (!above)]],
         CmdResult.success) ∧
      delete_row_command (-1) row doc =
        ([Effect.readDoc, Effect.batchUpdate [delete_table_row_request t.start_index row]],
         CmdResult.success) ∧
      add_column_command (-1) column left doc =
        ([Effect.readDoc,
          Effect.batchUpdate [insert_table_column_request t.start_index column (!left)]],
         CmdResult.success) ∧
      delete_column_command (-1) column doc =
        ([Effect.readDoc,
          Effect.batchUpdate [delete_table_column_request t.start_index column]],
         CmdResult.success)) ∧
    (∀ i : Int, i + ((find_tables doc).length : Int) < 0 →
      add_row_command i row above doc = ([Effect.readDoc], CmdResult.indexFault) ∧
      delete_row_command i row doc = ([Effect.readDoc], CmdResult.indexFault) ∧
      add_column_command i column left doc = ([Effect.readDoc], CmdResult.indexFault) ∧
      delete_column_command i column doc = ([Effect.readDoc], CmdResult.indexFault)) := by
  constructor
  · intro t ht
    have hne := ne_nil_of_getLast?_eq_some ht
    have hlen : 0 < (find_tables doc).length := List.length_pos.mpr hne
    have hnotge : ¬ (((find_tables doc).length : Int) ≤ -1) := by omega
    have hidx : pyIndex (find_tables doc) (-1) = some t := by
      rw [pyIndex_neg_one _ hne, ht]
    refine ⟨?_, ?_, ?_, ?_⟩ <;>
      simp [add_row_command, delete_row_command, add_column_command, delete_column_command,
        hnotge, hidx]
  · intro i hi
    have hnotge : ¬ (((find_tables doc).length : Int) ≤ i) := by omega
    have hidx : pyIndex (find_tables doc) i = none := pyIndex_too_negative _ i hi
    refine ⟨?_, ?_, ?_, ?_⟩ <;>
      simp [add_row_command, delete_row_command, add_column_command, delete_column_command,
        hnotge, hidx]

theorem negative_table_index_from_end_indexing_witness :
    add_row_command (-1) 0 false twoTableDoc =
      ([Effect.readDoc,
        Effect.batchUpdate [insert_table_row_request (some 60) 0 (!false)]],
       CmdResult.success) ∧
    add_row_command (-3) 0 false twoTableDoc = ([Effect.readDoc], CmdResult.indexFault) := by
  obtain ⟨hlast, hfault⟩ := negative_table_index_from_end_indexing 0 0 false false twoTableDoc
  exact ⟨(hlast ⟨some 60, some 90, 3, 1⟩ rfl).1, (hfault (-3) (by decide)).1⟩

/-- Claim C7: the Markdown projection maps TITLE and HEADING_1 to one
number-sign prefix, SUBTITLE to the text wrapped in asterisks, HEADING_2
through HEADING_6 to two through six number signs, no style or NORMAL_TEXT
to a plain line, and a paragraph whose text is empty after stripping
trailing newlines contributes no output at all. -/
theorem markdown_paragraph_style_mapping (p : Paragraph) :
    (pyRstripNewlines (extract_text_from_paragraph p) = "" → paraMarkdownParts p = []) ∧
    (∀ t : String, pyRstripNewlines (extract_text_from_paragraph p) = t → t ≠ "" →
      ((p.namedStyleType = some "TITLE" ∨ p.namedStyleType = some "HEADING_1") →
        paraMarkdownParts p = ["# " ++ t ++ "\n"]) ∧
      (p.namedStyleType = some "SUBTITLE" → paraMarkdownParts p = ["*" ++ t ++ "*\n"]) ∧
      (p.namedStyleType = some "HEADING_2" → paraMarkdownParts p = ["## " ++ t ++ "\n"]) ∧
      (p.namedStyleType = some "HEADING_3" → paraMarkdownParts p = ["### " ++ t ++ "\n"]) ∧
      (p.namedStyleType = some "HEADING_4" → paraMarkdownParts p = ["#### " ++ t ++ "\n"]) ∧
      (p.namedStyleType = some "HEADING_5" → paraMarkdownParts p = ["##### " ++ t ++ "\n"]) ∧
      (p.namedStyleType = some "HEADING_6" → paraMarkdownParts p = ["###### " ++ t ++ "\n"]) ∧
      ((p.namedStyleType = none ∨ p.namedStyleType = some "NORMAL_TEXT") →
        paraMarkdownParts p = [t ++ "\n"])) ∧
    content_to_markdown [examplePara "Hello\n" (some "NORMAL_TEXT")] = "Hello\n" ∧
    content_to_markdown [examplePara "\n" none] = "" := by
  refine ⟨?_, ?_, rfl, rfl⟩
  · intro h0
    simp [paraMarkdownParts, h0]
  · intro t ht hne
    refine ⟨?_, ?_, ?_, ?_, ?_, ?_, ?_, ?_⟩ <;>
      first
      | (rintro (hs | hs) <;>
          simp [paraMarkdownParts, get_paragraph_style, hs, ht, hne])
      | (intro hs
         simp [paraMarkdownParts, get_paragraph_style, hs, ht, hne])

theorem markdown_paragraph_style_mapping_witness :
    paraMarkdownParts (exampleParagraph "T\n" (some "HEADING_2")) = ["## " ++ "T" ++ "\n"] ∧
    paraMarkdownParts (exampleParagraph "\n" none) = [] := by
  constructor
  · exact ((markdown_paragraph_style_mapping
      (exampleParagraph "T\n" (some "HEADING_2"))).2.1 "T" rfl (by decide)).2.2.1 rfl
  · exact (markdown_paragraph_style_mapping (exampleParagraph "\n" none)).1 rfl

theorem mdRowStep_enumFrom (rows : List TableRowD) :
    ∀ n : Nat, n ≠ 0 → ((rows.enumFrom n).map mdRowStep).join = rows.map mdRowLine := by
  induction rows with
  | nil => intro n _; rfl
  | cons r rest ih =>
      intro n hn
      have hstep : (r :: rest).enumFrom n = (n, r) :: rest.enumFrom (n + 1) := rfl
      rw [hstep, List.map_cons]
      show mdRowStep (n, r) ++ ((rest.enumFrom (n + 1)).map mdRowStep).join = _
      rw [ih (n + 1) (by omega)]
      simp [mdRowStep, hn]

/-- Claim C8: Markdown table rendering emits one pipe-delimited line per
row in row order with the separator line sized by the first row's cell
count inserted immediately after the first row's line; the concrete 2 by 2
table with cells A,B and 1,2 renders as exactly the three expected lines. -/
theorem table_markdown_separator_after_first_row :
    (∀ (r : TableRowD) (rest : List TableRowD),
      tableMarkdownRows (r :: rest) =
        mdRowLine r :: mdSepLine r.tableCells.length :: rest.map mdRowLine) ∧
    (∀ (t : TableD) (r : TableRowD) (rest : List TableRowD), t.tableRows = r :: rest →
      table_to_markdown t =
        String.intercalate "\n"
          (mdRowLine r :: mdSepLine r.tableCells.length :: rest.map mdRowLine)) ∧
    table_to_markdown exampleTable22 =
      "| A | B |" ++ "\n" ++ "| --- | --- |" ++ "\n" ++ "| 1 | 2 |" := by
  have hrows : ∀ (r : TableRowD) (rest : List TableRowD),
      tableMarkdownRows (r :: rest) =
        mdRowLine r :: mdSepLine r.tableCells.length :: rest.map mdRowLine := by
    intro r rest
    show ((((r :: rest).enumFrom 0).map mdRowStep).join) = _
    have hstep : (r :: rest).enumFrom 0 = (0, r) :: rest.enumFrom 1 := rfl
    rw [hstep, List.map_cons]
    show mdRowStep (0, r) ++ ((rest.enumFrom 1).map mdRowStep).join = _
    rw [mdRowStep_enumFrom rest 1 (by omega)]
    simp [mdRowStep]
  refine ⟨hrows, ?_, by rfl⟩
  intro t r rest htr
  simp only [table_to_markdown, htr]
  rw [if_neg (by simp), hrows]

theorem table_markdown_separator_after_first_row_witness :
    table_to_markdown exampleTable22 =
      String.intercalate "\n"
        (mdRowLine (simpleRow ["A\n", "B\n"]) ::
          mdSepLine (simpleRow ["A\n", "B\n"]).tableCells.length ::
          [simpleRow ["1\n", "2\n"]].map mdRowLine) :=
  table_markdown_separator_after_first_row.2.1 exampleTable22 (simpleRow ["A\n", "B\n"])
    [simpleRow ["1\n", "2\n"]] rfl

/-- Claim C9 (amended): plain-text extraction concatenates element texts in
document order, run contents within a paragraph; within a table it strips
each cell's text of all leading and trailing whitespace, appends a tab after
every cell including the last, and a newline after every row including the
last. -/
theorem extract_text_projection :
    (∀ (e : SElem) (rest : List SElem),
      extract_text_from_content (e :: rest) =
        elemPlainText e ++ extract_text_from_content rest) ∧
    (∀ (si ei : Option Int) (p : Paragraph) (rest : List SElem),
      extract_text_from_content
          ({ startIndex := si, endIndex := ei, kind := SElemKind.paragraph p } :: rest) =
        extract_text_from_paragraph p ++ extract_text_from_content rest) ∧
    extract_text_from_content [exampleTableRowAB] = "A\tB\t\n" ∧
    extract_text_from_content [exampleTableTwoRows] = "A\tB\t\nC\tD\t\n" ∧
    extract_cell_text (simpleCell " A\n") = "A" := by
  have h1 : ∀ (e : SElem) (rest : List SElem),
      extract_text_from_content (e :: rest) =
        elemPlainText e ++ extract_text_from_content rest := by
    intro e rest
    show String.join (elemPlainText e :: rest.map elemPlainText) = _
    rw [string_join_cons]
    rfl
  refine ⟨h1, ?_, rfl, rfl, rfl⟩
  intro si ei p rest
  rw [h1]
  rfl

/-- Counterexample to claim C9 as stated: one table row with cells A and B
extracts to a string with a tab after the last cell and a trailing newline,
and a leading space in a cell is stripped rather than preserved. -/
theorem extract_text_trailing_tab_counterexample :
    extract_text_from_content [exampleTableRowAB] = "A\tB\t\n" ∧
    "A\tB\t\n" ≠ "A\tB\n" ∧
    "A\tB\t\n" ≠ "A\tB" ∧
    extract_cell_text (simpleCell " A\n") = "A" ∧
    "A" ≠ " A" :=
  ⟨rfl, by decide, by decide, rfl, by decide⟩
